import Mathlib

/-!
Verification of the kazoo-sdk client library: the declarative REST-resource
descriptor (`kazoo/rest_resources.py`), the method synthesizer
(`kazoo/client.py`, `RestClientMetaClass`) and the client facade's
authentication / execution pipeline (`kazoo/client.py`, `Client`).

Strings are modelled as Lean `String`s; the Python string-scanning helpers
(`re.findall`, `str.format`, `str.rfind` with slicing) are embedded as
fuel-indexed structural recursions over the character list, with fuel equal
to the list length, which always suffices because every step consumes at
least one character.
-/

namespace Kazoo

/-- A character matching the character class `[a-zA-Z0-9_]` of the parameter
regex `{([a-zA-Z0-9_]+)}` in `RestResource.__init__`. -/
def isWordChar (c : Char) : Bool :=
  c.isAlpha || c.isDigit || c = '_'

/-- Split a character list into its maximal leading run of word characters
and the rest (the greedy `[a-zA-Z0-9_]+` munch of the regex engine). -/
def takeWord : List Char → List Char × List Char
  | [] => ([], [])
  | c :: rest =>
      if isWordChar c then
        let p := takeWord rest
        (c :: p.1, p.2)
      else ([], c :: rest)

/-- Embedding of `re.findall("{([a-zA-Z0-9_]+)}", s)`: scan left to right; at a `{` match
a nonempty run of word characters followed by `}`; on a failed match the
engine advances one position (past the `{`) and retries; after a successful
match it continues after the `}`. Fuel-indexed for structural recursion. -/
def findParamsAux : Nat → List Char → List (List Char)
  | 0, _ => []
  | _ + 1, [] => []
  | fuel + 1, c :: rest =>
      if c = '{' then
        match takeWord rest with
        | (w, '}' :: rest2) =>
            if w = [] then findParamsAux fuel rest
            else w :: findParamsAux fuel rest2
        | (_, _) => findParamsAux fuel rest
      else findParamsAux fuel rest

/-- Embedding of `RestResource._get_params`: the ordered list of `{param}` placeholder
names of a URL template. -/
def findParams (s : String) : List String :=
  (findParamsAux s.toList.length s.toList).map (fun w => String.mk w)

/-- Python `str.format(**params)` restricted to simple named fields, which is
the only shape the library's URL templates use: each `{field}` is replaced
by `params field`; other characters are copied. Fuel-indexed. -/
def formatAux (params : String → String) : Nat → List Char → List Char
  | 0, _ => []
  | _ + 1, [] => []
  | fuel + 1, c :: rest =>
      if c = '{' then
        let field := rest.takeWhile (fun d => d ≠ '}')
        match rest.dropWhile (fun d => d ≠ '}') with
        | '}' :: rest3 =>
            (params (String.mk field)).toList ++ formatAux params fuel rest3
        | _ => c :: formatAux params fuel rest
      else c :: formatAux params fuel rest

/-- Embedding of `template.format(**params)` on a URL template. -/
def formatString (template : String) (params : String → String) : String :=
  String.mk (formatAux params template.toList.length template.toList)

/-- Index of the last `{` in a character list (`s.rfind("{")`), `none` when
there is no occurrence (Python returns `-1`). -/
def rfindBrace : List Char → Option Nat
  | [] => none
  | c :: rest =>
      match rfindBrace rest with
      | some i => some (i + 1)
      | none => if c = '{' then some 0 else none

/-- Python slice `l[:i]` for an `Int` bound: nonnegative bounds truncate at
the length, negative bounds count from the end. -/
def pySlice (l : List Char) (i : Int) : List Char :=
  if 0 ≤ i then l.take i.toNat else l.take (l.length - (-i).toNat)

/-- Embedding of `RestResource._get_resource_path`: `path[:path.rfind("{") - 1]`, the
template with the trailing object-parameter segment (and the `/` before it)
stripped. -/
def getResourcePath (path : String) : String :=
  let idx : Int :=
    match rfindBrace path.toList with
    | some i => (i : Int)
    | none => -1
  String.mk (pySlice path.toList (idx - 1))

/-- A normalized extra-view description, after
`RestResource._initialize_extra_view_descriptions` has filled the defaults:
`scope` defaults to `"aggregate"` and `method` to `"get"`. -/
structure ExtraView where
  name : String
  path : String
  scope : String
  method : String
deriving DecidableEq, Repr

/-- An extra-view description as written in a descriptor declaration: either
a bare string or a dict with `name` and `path` and optional `scope` and
`method` keys (the only dict shapes the library constructs). -/
inductive ViewDesc where
  | str (s : String)
  | dict (name : String) (path : String)
      (scope : Option String) (method : Option String)
deriving DecidableEq, Repr

/-- One step of `RestResource._initialize_extra_view_descriptions`: a bare
string `v` becomes `{name: "get_" + v, path: v}`; missing `scope` becomes
`"aggregate"`; missing `method` becomes `"get"`. -/
def normalizeView : ViewDesc → ExtraView
  | .str s =>
      { name := "get_" ++ s, path := s, scope := "aggregate", method := "get" }
  | .dict n p sc m =>
      { name := n, path := p,
        scope := sc.getD "aggregate", method := m.getD "get" }

/-- The tuple `METHOD_TYPES` from `rest_resources.py`. -/
def METHOD_TYPES : List String :=
  ["detail", "list", "update", "create", "delete"]

/-- The constructed `RestResource` object: the fields of
`RestResource.__init__` that the verified claims read. `method_names` is
omitted (no claim mentions generated method names), and `methods` — built in
the source as `list(set(methods) - set(exclude_methods))`, whose order is
arbitrary — is kept as a filtered list, meaningful only up to membership. -/
structure RestResource where
  name : String
  pluralNameOpt : Option String
  requiredArgs : List String
  objectArg : String
  path : String
  extraViews : List ExtraView
  methods : List String
deriving DecidableEq, Repr

/-- Embedding of `RestResource.__init__`: checks the template has at least one `{param}`
placeholder (`_check_at_least_one_argument`, raising `ValueError`
otherwise), then computes `required_args` (`params[:-1]` when there are at
least two, else `[]`), `object_arg` (`params[-1]`), the base `path`
(`_get_resource_path`), the normalized extra views and the supported
methods. -/
def mkRestResource (name : String) (path : String)
    (pluralName : Option String) (extraViews : List ViewDesc)
    (methods : List String) (excludeMethods : List String) :
    Except String RestResource :=
  match findParams path with
  | [] => .error "Rest resources need at least one argument"
  | p :: ps =>
      .ok { name := name
            pluralNameOpt := pluralName
            requiredArgs :=
              if (p :: ps).length > 1 then (p :: ps).dropLast else []
            objectArg := (p :: ps).getLast (List.cons_ne_nil p ps)
            path := getResourcePath path
            extraViews := extraViews.map normalizeView
            methods := methods.filter (fun m => !excludeMethods.contains m) }

/-- Modelled from the spec: the request specification built by the request
builder (`KazooRequest` lives in `kazoo/request_objects.py`, which is not
part of the sources here; the spec calls it RequestSpec, with a resolved
HTTP method and a fully substituted URL; the method defaults to GET). Query
parameters, payload and attachments are supplied at execution time and are
not part of what the builders in `rest_resources.py` decide. -/
structure KazooRequest where
  path : String
  method : String
deriving DecidableEq, Repr

/-- Embedding of `RestResource._get_full_url`: the object URL, i.e. the substituted base
path followed by `/` and the object-parameter value. -/
def getFullUrl (r : RestResource) (params : String → String) : String :=
  formatString r.path params ++ "/" ++ params r.objectArg

/-- Embedding of `RestResource.get_list_request`. -/
def getListRequest (r : RestResource) (params : String → String) :
    KazooRequest :=
  { path := formatString r.path params, method := "get" }

/-- Embedding of `RestResource.get_object_request`. -/
def getObjectRequest (r : RestResource) (params : String → String) :
    KazooRequest :=
  { path := getFullUrl r params, method := "get" }

/-- Embedding of `RestResource.get_update_object_request`. -/
def getUpdateObjectRequest (r : RestResource) (params : String → String) :
    KazooRequest :=
  { path := getFullUrl r params, method := "post" }

/-- Embedding of `RestResource.get_delete_object_request`. -/
def getDeleteObjectRequest (r : RestResource) (params : String → String) :
    KazooRequest :=
  { path := getFullUrl r params, method := "delete" }

/-- Embedding of `RestResource.get_create_object_request`. -/
def getCreateObjectRequest (r : RestResource) (params : String → String) :
    KazooRequest :=
  { path := formatString r.path params, method := "put" }

/-- The view-description lookup loop of `get_extra_view_request`: iterate
over all declared views and keep overwriting; the LAST view whose `path`
equals `viewname` wins. -/
def lastMatching (views : List ExtraView) (viewname : String) :
    Option ExtraView :=
  views.foldl (fun acc d => if d.path = viewname then some d else acc) none

/-- Embedding of `RestResource.get_extra_view_request`: find the (last) declared view
with the given path, raising `ValueError` when none matches; build the URL
from the substituted base path (`"aggregate"` scope) or the object URL
(any other scope), with the matched view's method. -/
def getExtraViewRequest (r : RestResource) (viewname : String)
    (params : String → String) : Except String KazooRequest :=
  match lastMatching r.extraViews viewname with
  | none => .error ("Unknown extra view name " ++ viewname)
  | some vd =>
      if vd.scope = "aggregate" then
        .ok { path := formatString r.path params ++ "/" ++ viewname,
              method := vd.method }
      else
        .ok { path := getFullUrl r params ++ "/" ++ viewname,
              method := vd.method }

/-- Embedding of `RestClientMetaClass._generate_resource_func`: the named parameter list
of a generated method (after `self`) is the resource arguments it was given,
with a trailing `data` parameter appended when the operation carries a
payload. -/
def funcParamList (resourceRequiredArgs : List String)
    (requiresData : Bool) : List String :=
  resourceRequiredArgs ++ (if requiresData then ["data"] else [])

/-- Embedding of `_generate_list_func`: the list method takes the required args only. -/
def listFuncArgs (r : RestResource) : List String :=
  funcParamList r.requiredArgs false

/-- Embedding of `_generate_get_object_func`: the detail method takes the required args
followed by the object arg. -/
def getObjectFuncArgs (r : RestResource) : List String :=
  funcParamList (r.requiredArgs ++ [r.objectArg]) false

/-- Embedding of `_generate_delete_object_func`: the delete method takes the required
args followed by the object arg. -/
def deleteFuncArgs (r : RestResource) : List String :=
  funcParamList (r.requiredArgs ++ [r.objectArg]) false

/-- Embedding of `_generate_update_object_func`: the update method takes the required
args, the object arg and a trailing data parameter. -/
def updateFuncArgs (r : RestResource) : List String :=
  funcParamList (r.requiredArgs ++ [r.objectArg]) true

/-- Embedding of `_generate_create_object_func`: the create method takes the required
args and a trailing data parameter. -/
def createFuncArgs (r : RestResource) : List String :=
  funcParamList r.requiredArgs true

/-- Python truthiness of an optional string argument (`None` and `""` are
falsy), as tested by `Client.__init__`. -/
def pyTruthy : Option String → Bool
  | none => false
  | some s => s ≠ ""

/-- Modelled from the spec: the credential-exchange request object stored by
the constructor — `UsernamePasswordAuthRequest` and `ApiKeyAuthRequest` live
in `kazoo/request_objects.py`, which is not part of the sources here; the
spec describes them as a tagged choice between the (username, password,
account name) triple and the api key, handed to the external credential
provider. -/
inductive AuthRequestKind where
  | usernamePassword (username password accountName : String)
  | apiKey (key : String)
deriving DecidableEq, Repr

/-- The value `Client.base_url`, the fixed default platform URL. -/
def defaultBaseUrl : String := "http://api.2600hz.com:8000/v1"

/-- The facade state established by `Client.__init__`. -/
structure ClientState where
  authRequest : AuthRequestKind
  apiKey : Option String
  authenticated : Bool
  authToken : Option String
  baseUrl : String
deriving DecidableEq, Repr

/-- Embedding of `Client.__init__(api_key, password, account_name, username, base_url)`:
raises `RuntimeError` when neither an api key nor a password is supplied;
overrides `base_url` when one is passed (an `is not None` test); when any of
password, account name or username is supplied, requires all three and
stores a username/password auth request; otherwise stores an api-key auth
request. The client starts unauthenticated with no token. -/
def clientInit (apiKey password accountName username baseUrl :
    Option String) : Except String ClientState :=
  if !pyTruthy apiKey && !pyTruthy password then
    .error "You must pass either an api_key or an account name/password pair"
  else
    let base := match baseUrl with
      | some b => b
      | none => defaultBaseUrl
    if pyTruthy password || pyTruthy accountName || pyTruthy username then
      if !(pyTruthy password && pyTruthy accountName && pyTruthy username)
      then
        .error ("If using account name/password authentication then you " ++
          "must specify password, userame and account_name arguments")
      else
        .ok { authRequest := .usernamePassword (username.getD "")
                (password.getD "") (accountName.getD "")
              apiKey := apiKey
              authenticated := false
              authToken := none
              baseUrl := base }
    else
      .ok { authRequest := .apiKey (apiKey.getD "")
            apiKey := apiKey
            authenticated := false
            authToken := none
            baseUrl := base }

/-- The mutable authentication state of the facade (`self._authenticated`,
`self.auth_token`), extended with a count of credential exchanges performed
so far, so that idempotence and single-retry claims can speak about how many
exchanges an execution performed. -/
structure AuthState where
  authenticated : Bool
  authToken : Option String
  exchangeCount : Nat
deriving DecidableEq, Repr

/-- Embedding of `Client.authenticate`: when not authenticated, perform the credential
exchange and store the returned token, setting the authenticated flag;
return the stored token. The external credential provider is modelled as
`exchanges : Nat → String`, giving the `auth_token` field of the data
returned by the n-th exchange this client performs. -/
def authenticate (exchanges : Nat → String) (s : AuthState) :
    Option String × AuthState :=
  let s' :=
    if !s.authenticated then
      { authenticated := true
        authToken := some (exchanges s.exchangeCount)
        exchangeCount := s.exchangeCount + 1 }
    else s
  (s'.authToken, s')

/-- Modelled from the spec: the outcome of one transport execution of a
request (`KazooRequest.execute` lives in `kazoo/request_objects.py`, which
is not part of the sources here). The spec's error taxonomy: success, the
domain-specific authentication-failure signal (`KazooApiAuthenticationError`
in `kazoo/exceptions.py`), or any other failure, which the pipeline never
handles. -/
inductive ExecResult (α : Type) where
  | ok (v : α)
  | authErr (msg : String)
  | otherErr (msg : String)
deriving DecidableEq, Repr

/-- An error propagated to the caller of `_execute_request`. -/
inductive KError where
  | authErr (msg : String)
  | otherErr (msg : String)
deriving DecidableEq, Repr

/-- Embedding of `Client._execute_request(request, **kwargs)`. The transport is modelled
as `transport : Nat → Option (Option String) → ExecResult α`, mapping the
attempt index and the `token` keyword argument (outer `none` when the
keyword is absent, i.e. the request does not require auth on the first
attempt) to the outcome of `request.execute(self.base_url, **kwargs)`.
The code: when the request requires auth, set `kwargs["token"]` to the
stored token; execute; on `KazooApiAuthenticationError`, clear the
authenticated flag and the stored token, call `authenticate()`, set
`kwargs["token"]` to the fresh token unconditionally, and execute exactly
once more, outside any handler, so whatever the second execution raises
propagates. Returns the result (or propagated error), the final auth state
and the number of transport executions performed. -/
def executeRequest {α : Type}
    (transport : Nat → Option (Option String) → ExecResult α)
    (exchanges : Nat → String) (authRequired : Bool) (s : AuthState) :
    Except KError α × AuthState × Nat :=
  let token0 : Option (Option String) :=
    if authRequired then some s.authToken else none
  match transport 0 token0 with
  | .ok v => (.ok v, s, 1)
  | .otherErr m => (.error (.otherErr m), s, 1)
  | .authErr _ =>
      let cleared : AuthState :=
        { authenticated := false, authToken := none,
          exchangeCount := s.exchangeCount }
      let p := authenticate exchanges cleared
      match transport 1 (some p.2.authToken) with
      | .ok v => (.ok v, p.2, 2)
      | .otherErr m => (.error (.otherErr m), p.2, 2)
      | .authErr m => (.error (.authErr m), p.2, 2)

/-- Modelled from the spec: the transport's response object (the `requests`
library is an external collaborator; the spec says it exposes status
success/failure and a JSON-decodable body). `ok` is the success indicator —
true exactly for a successful status class; `bodyData` is the `"data"`
field of the JSON-parsed body. -/
structure HttpResponse where
  ok : Bool
  bodyData : String
deriving DecidableEq, Repr

/-- The second component of `Client.manual_request`'s return value: the
parsed body's `"data"` field on success, the raw response object on
failure. -/
inductive ManualResult where
  | parsedData (d : String)
  | rawResponse (r : HttpResponse)
deriving DecidableEq, Repr

/-- Embedding of `Client.manual_request(uri, method, headers, data, files)`: the URL is
the base URL concatenated with `uri`; the call is dispatched to the
transport (header assembly, JSON payload serialization and file
attachments are passed through to the external transport and are not part
of the branch decision); if the response is ok the result is
`(True, r.json()["data"])`, otherwise `(False, r)`. The transport is
modelled as `send : String → String → HttpResponse`, mapping method and
URL to the response. -/
def manualRequest (send : String → String → HttpResponse)
    (baseUrl : String) (uri : String) (method : String) :
    Bool × ManualResult :=
  let url := baseUrl ++ uri
  let r := send method url
  if r.ok then (true, .parsedData r.bodyData)
  else (false, .rawResponse r)

instance {ε α : Type} [DecidableEq ε] [DecidableEq α] :
    DecidableEq (Except ε α)
  | .error e, .error f =>
      if h : e = f then .isTrue (by rw [h])
      else .isFalse (by intro c; cases c; exact h rfl)
  | .error _, .ok _ => .isFalse (by intro c; cases c)
  | .ok _, .error _ => .isFalse (by intro c; cases c)
  | .ok a, .ok b =>
      if h : a = b then .isTrue (by rw [h])
      else .isFalse (by intro c; cases c; exact h rfl)

/-- The extra-view declarations of `Client._server_resource` in
`client.py`, in declaration order: `get_deployment` (object scope, no
method key), `create_deployment` (object scope, method `put`) and
`get_server_log` (path `log`). -/
def serverViewDescs : List ViewDesc :=
  [ .dict "get_deployment" "deployment" (some "object") none,
    .dict "create_deployment" "deployment" (some "object") (some "put"),
    .dict "get_server_log" "log" none none ]

/-- The descriptor object `Client._callflow_resource` evaluates to. -/
def callflowResource : RestResource :=
  { name := "callflow"
    pluralNameOpt := none
    requiredArgs := ["account_id"]
    objectArg := "callflow_id"
    path := "/accounts/{account_id}/callflows"
    extraViews := []
    methods := ["detail", "list", "update", "create", "delete"] }

/-- A concrete parameter assignment for the callflow resource. -/
def cfParams : String → String :=
  fun n => if n = "account_id" then "acc1" else "cf1"

/-- Claim C5: calling `authenticate()` twice on the same client without an
intervening authentication failure performs exactly one credential
exchange — the first call on an unauthenticated client performs one
exchange, and the second call performs no exchange, leaves the stored
token unchanged, and returns the same token as the first call. -/
theorem authenticate_idempotent (exchanges : Nat → String) (s : AuthState)
    (h : s.authenticated = false) :
    (authenticate exchanges s).2.exchangeCount = s.exchangeCount + 1 ∧
    (authenticate exchanges ((authenticate exchanges s).2)).2 =
      (authenticate exchanges s).2 ∧
    (authenticate exchanges ((authenticate exchanges s).2)).1 =
      (authenticate exchanges s).1 := by
  simp [authenticate, h]

/-- Witness for C5 at a fresh client state and a concrete exchange
oracle. -/
theorem authenticate_idempotent_witness :
    (authenticate (fun _ => "tok0") ⟨false, none, 0⟩).2.exchangeCount =
      0 + 1 ∧
    (authenticate (fun _ => "tok0")
        ((authenticate (fun _ => "tok0") ⟨false, none, 0⟩).2)).2 =
      (authenticate (fun _ => "tok0") ⟨false, none, 0⟩).2 ∧
    (authenticate (fun _ => "tok0")
        ((authenticate (fun _ => "tok0") ⟨false, none, 0⟩).2)).1 =
      (authenticate (fun _ => "tok0") ⟨false, none, 0⟩).1 :=
  authenticate_idempotent (fun _ => "tok0") ⟨false, none, 0⟩ rfl

/-- Claim C6: for every resource descriptor and parameter assignment, the
update request and the delete request for the same instance have identical
URLs; they differ only in HTTP method (POST vs DELETE) and in the update
method carrying a trailing body-payload parameter which the delete method
lacks. -/
theorem update_delete_requests_same_url (r : RestResource)
    (params : String → String) :
    (getUpdateObjectRequest r params).path =
      (getDeleteObjectRequest r params).path ∧
    (getUpdateObjectRequest r params).method = "post" ∧
    (getDeleteObjectRequest r params).method = "delete" ∧
    updateFuncArgs r = deleteFuncArgs r ++ ["data"] := by
  refine ⟨rfl, rfl, rfl, ?_⟩
  simp [updateFuncArgs, deleteFuncArgs, funcParamList]

/-- Claim C8: `manual_request` returns `(True, parsedBody["data"])` exactly
when the transport reports a successful status, `(False, rawResponse)`
otherwise, and the success flag depends only on the response's status
indicator, never on the payload content. -/
theorem manual_request_success_flag
    (send : String → String → HttpResponse) (baseUrl uri method : String) :
    ((manualRequest send baseUrl uri method).1 = true ↔
      (send method (baseUrl ++ uri)).ok = true) ∧
    ((send method (baseUrl ++ uri)).ok = true →
      manualRequest send baseUrl uri method =
        (true, .parsedData (send method (baseUrl ++ uri)).bodyData)) ∧
    ((send method (baseUrl ++ uri)).ok = false →
      manualRequest send baseUrl uri method =
        (false, .rawResponse (send method (baseUrl ++ uri)))) ∧
    (∀ send' : String → String → HttpResponse,
      (send' method (baseUrl ++ uri)).ok = (send method (baseUrl ++ uri)).ok →
      (manualRequest send' baseUrl uri method).1 =
        (manualRequest send baseUrl uri method).1) := by
  refine ⟨?_, ?_, ?_, ?_⟩
  · cases h : (send method (baseUrl ++ uri)).ok <;> simp [manualRequest, h]
  · intro h; simp [manualRequest, h]
  · intro h; simp [manualRequest, h]
  · intro send' h
    cases h2 : (send method (baseUrl ++ uri)).ok <;>
      rw [h2] at h <;> simp [manualRequest, h, h2]

/-- Witness for C8: a transport returning a successful response with body
data `"payload"`, and one returning a failed response. -/
theorem manual_request_success_flag_witness :
    manualRequest (fun _ _ => ⟨true, "payload"⟩) "http://h" "/u" "get" =
      (true, .parsedData "payload") ∧
    manualRequest (fun _ _ => ⟨false, "payload"⟩) "http://h" "/u" "get" =
      (false, .rawResponse ⟨false, "payload"⟩) :=
  ⟨(manual_request_success_flag (fun _ _ => ⟨true, "payload"⟩)
      "http://h" "/u" "get").2.1 rfl,
   (manual_request_success_flag (fun _ _ => ⟨false, "payload"⟩)
      "http://h" "/u" "get").2.2.1 rfl⟩

/-- Claim C3 (code bug): on `Client._server_resource`, the declared extra
view `get_deployment` has path `deployment` and (default) method `get`, but
because `create_deployment` shares the same path and the lookup loop in
`get_extra_view_request` lets the last declared view with a matching path
win, building the request for path `deployment` yields method `put` — so
the generated `client.get_deployment` performs a PUT, contradicting the
client docstring `GET /accounts/../servers/../deployment ->
client.get_deployment(acct_id, server_id)`. -/
theorem get_deployment_view_builds_put_request :
    (mkRestResource "server" "/accounts/{account_id}/servers/{server_id}"
        none serverViewDescs ["list"] []).map
      (fun r =>
        (r.extraViews.map (fun v => (v.name, v.path, v.method)),
         (getExtraViewRequest r "deployment"
             (fun n => if n = "account_id" then "acc1" else "srv1")).map
           (fun q => (q.path, q.method))))
    = .ok ([("get_deployment", "deployment", "get"),
            ("create_deployment", "deployment", "put"),
            ("get_server_log", "log", "get")],
           .ok ("/accounts/acc1/servers/srv1/deployment", "put")) := by
  decide

/-- Claim C4: constructing the client with an API key together with a
partially supplied username/password/account-name triple raises a
configuration error; constructing it with only an API key, or with only
the complete triple, succeeds; constructing it with neither an API key nor
any password raises a configuration error. -/
theorem client_init_credential_validation :
    (∀ (k : String) (p a u b : Option String), k ≠ "" →
      (pyTruthy p || pyTruthy a || pyTruthy u) = true →
      (pyTruthy p && pyTruthy a && pyTruthy u) = false →
      clientInit (some k) p a u b =
        .error ("If using account name/password authentication then you " ++
          "must specify password, userame and account_name arguments")) ∧
    (∀ (k : String) (b : Option String), k ≠ "" →
      (clientInit (some k) none none none b).map
        (fun st => st.authRequest) = .ok (.apiKey k)) ∧
    (∀ (p a u : String) (b : Option String), p ≠ "" → a ≠ "" → u ≠ "" →
      (clientInit none (some p) (some a) (some u) b).map
        (fun st => st.authRequest) = .ok (.usernamePassword u p a)) ∧
    (∀ (k p a u b : Option String), pyTruthy k = false →
      pyTruthy p = false →
      clientInit k p a u b =
        .error
          "You must pass either an api_key or an account name/password pair")
    := by
  refine ⟨?_, ?_, ?_, ?_⟩
  · intro k p a u b hk htr hand
    have hk' : pyTruthy (some k) = true := by simp [pyTruthy, hk]
    simp [clientInit, hk', htr, hand]
  · intro k b hk
    have hk' : pyTruthy (some k) = true := by simp [pyTruthy, hk]
    simp [clientInit, hk', pyTruthy, hk, Except.map]
  · intro p a u b hp ha hu
    have hp' : pyTruthy (some p) = true := by simp [pyTruthy, hp]
    have ha' : pyTruthy (some a) = true := by simp [pyTruthy, ha]
    have hu' : pyTruthy (some u) = true := by simp [pyTruthy, hu]
    simp [clientInit, hp', ha', hu', Except.map]
  · intro k p a u b hk hp
    simp [clientInit, hk, hp]

/-- Witness for C4: api key plus a partial triple fails, an api key alone
succeeds, a complete triple alone succeeds, and neither an api key nor a
password fails. -/
theorem client_init_credential_validation_witness :
    clientInit (some "key") (some "pw") none none none =
      .error ("If using account name/password authentication then you " ++
        "must specify password, userame and account_name arguments") ∧
    (clientInit (some "key") none none none none).map
      (fun st => st.authRequest) = .ok (.apiKey "key") ∧
    (clientInit none (some "pw") (some "acct") (some "user") none).map
      (fun st => st.authRequest) =
        .ok (.usernamePassword "user" "pw" "acct") ∧
    clientInit none none (some "acct") (some "user") none =
      .error
        "You must pass either an api_key or an account name/password pair" :=
  ⟨client_init_credential_validation.1 "key" (some "pw") none none none
      (by decide) (by decide) (by decide),
   client_init_credential_validation.2.1 "key" none (by decide),
   client_init_credential_validation.2.2.1 "pw" "acct" "user" none
      (by decide) (by decide) (by decide),
   client_init_credential_validation.2.2.2 none none (some "acct")
      (some "user") none (by decide) (by decide)⟩

/-- Claim C10: constructing the client with both an API key and the
complete username/password/account-name triple succeeds, and the stored
auth request uses the username/password credentials, not the API key. -/
theorem api_key_and_full_triple_uses_password (k p a u : String)
    (b : Option String) (hk : k ≠ "") (hp : p ≠ "") (ha : a ≠ "")
    (hu : u ≠ "") :
    (clientInit (some k) (some p) (some a) (some u) b).map
      (fun st => st.authRequest) = .ok (.usernamePassword u p a) := by
  have hk' : pyTruthy (some k) = true := by simp [pyTruthy, hk]
  have hp' : pyTruthy (some p) = true := by simp [pyTruthy, hp]
  have ha' : pyTruthy (some a) = true := by simp [pyTruthy, ha]
  have hu' : pyTruthy (some u) = true := by simp [pyTruthy, hu]
  simp [clientInit, hk', hp', ha', hu', Except.map]

/-- Witness for C10 at concrete credentials. -/
theorem api_key_and_full_triple_uses_password_witness :
    (clientInit (some "key") (some "pw") (some "acct") (some "user")
        none).map (fun st => st.authRequest) =
      .ok (.usernamePassword "user" "pw" "acct") :=
  api_key_and_full_triple_uses_password "key" "pw" "acct" "user" none
    (by decide) (by decide) (by decide) (by decide)

/-- Claim C1: for every request whose first execution raises the
authentication-failure signal, `_execute_request` clears the stored token
and authenticated flag, performs exactly one re-authentication (the
exchange count rises by exactly one and the refreshed token is stored),
re-executes the request exactly once (two transport executions in total)
with the refreshed token, and the second execution's outcome — in
particular a second authentication failure — propagates to the caller
with no further retry. -/
theorem execute_request_single_retry_on_auth_failure {α : Type}
    (transport : Nat → Option (Option String) → ExecResult α)
    (exchanges : Nat → String) (authRequired : Bool) (s : AuthState)
    (m₁ : String)
    (h1 : transport 0 (if authRequired then some s.authToken else none) =
      .authErr m₁) :
    (executeRequest transport exchanges authRequired s).2.2 = 2 ∧
    (executeRequest transport exchanges authRequired s).2.1 =
      ⟨true, some (exchanges s.exchangeCount), s.exchangeCount + 1⟩ ∧
    (∀ m₂, transport 1 (some (some (exchanges s.exchangeCount))) =
        .authErr m₂ →
      (executeRequest transport exchanges authRequired s).1 =
        .error (.authErr m₂)) ∧
    (∀ v, transport 1 (some (some (exchanges s.exchangeCount))) = .ok v →
      (executeRequest transport exchanges authRequired s).1 = .ok v) ∧
    (∀ m₂, transport 1 (some (some (exchanges s.exchangeCount))) =
        .otherErr m₂ →
      (executeRequest transport exchanges authRequired s).1 =
        .error (.otherErr m₂)) := by
  have hauth : authenticate exchanges
      ⟨false, none, s.exchangeCount⟩ =
      (some (exchanges s.exchangeCount),
       ⟨true, some (exchanges s.exchangeCount), s.exchangeCount + 1⟩) := rfl
  refine ⟨?_, ?_, ?_, ?_, ?_⟩
  · cases h2 : transport 1 (some (some (exchanges s.exchangeCount))) <;>
      simp [executeRequest, hauth, h1, h2]
  · cases h2 : transport 1 (some (some (exchanges s.exchangeCount))) <;>
      simp [executeRequest, hauth, h1, h2]
  · intro m₂ h2; simp [executeRequest, hauth, h1, h2]
  · intro v h2; simp [executeRequest, hauth, h1, h2]
  · intro m₂ h2; simp [executeRequest, hauth, h1, h2]

/-- A transport whose every execution raises the authentication-failure
signal: the first attempt with message `expired`, any retry with message
`still expired`. -/
def demoTransport : Nat → Option (Option String) → ExecResult Nat :=
  fun i _ =>
    if i = 0 then .authErr "expired" else .authErr "still expired"

/-- Witness for C1: a transport that raises an authentication failure on
both the first and second execution; the second failure propagates, the
state holds the refreshed token, exactly one exchange and two executions
occurred. -/
theorem execute_request_single_retry_on_auth_failure_witness :
    (executeRequest demoTransport (fun _ => "fresh") true
        ⟨true, some "old", 0⟩).1 = .error (.authErr "still expired") ∧
    (executeRequest demoTransport (fun _ => "fresh") true
        ⟨true, some "old", 0⟩).2.1 = ⟨true, some "fresh", 0 + 1⟩ ∧
    (executeRequest demoTransport (fun _ => "fresh") true
        ⟨true, some "old", 0⟩).2.2 = 2 :=
  have h := execute_request_single_retry_on_auth_failure demoTransport
    (fun _ => "fresh") true ⟨true, some "old", 0⟩ "expired" (by decide)
  ⟨h.2.2.1 "still expired" (by decide), h.2.1, h.1⟩

/-- The lookup loop of `get_extra_view_request` leaves its accumulator
untouched when no declared view's path matches. -/
theorem foldl_lastMatching_of_no_match (viewname : String)
    (views : List ExtraView) (acc : Option ExtraView)
    (h : ∀ v ∈ views, v.path ≠ viewname) :
    views.foldl
      (fun acc d => if d.path = viewname then some d else acc) acc = acc := by
  induction views generalizing acc with
  | nil => rfl
  | cons d vs ih =>
      simp only [List.foldl_cons]
      rw [if_neg (h d (List.mem_cons_self d vs))]
      exact ih acc (fun v hv => h v (List.mem_cons_of_mem d hv))

/-- Claim C9: constructing a resource descriptor from a URL template with
zero `{param}` placeholders raises a configuration error, and requesting an
extra view by a name matching no declared view's path raises a
configuration error. -/
theorem configuration_errors_raised :
    (∀ (name path : String) (pl : Option String) (evs : List ViewDesc)
        (ms ex : List String), findParams path = [] →
      mkRestResource name path pl evs ms ex =
        .error "Rest resources need at least one argument") ∧
    (∀ (r : RestResource) (viewname : String) (params : String → String),
      (∀ v ∈ r.extraViews, v.path ≠ viewname) →
      getExtraViewRequest r viewname params =
        .error ("Unknown extra view name " ++ viewname)) := by
  constructor
  · intro name path pl evs ms ex h
    unfold mkRestResource
    rw [h]
  · intro r viewname params h
    unfold getExtraViewRequest lastMatching
    rw [foldl_lastMatching_of_no_match viewname r.extraViews none h]

/-- Witness for C9: the template `/sup` has no placeholder and fails, and
the callflow resource declares no view with path `status`, so requesting
it fails. -/
theorem configuration_errors_raised_witness :
    mkRestResource "sup" "/sup" none [] METHOD_TYPES [] =
      .error "Rest resources need at least one argument" ∧
    getExtraViewRequest callflowResource "status" cfParams =
      .error ("Unknown extra view name " ++ "status") :=
  ⟨configuration_errors_raised.1 "sup" "/sup" none [] METHOD_TYPES []
      (by decide),
   configuration_errors_raised.2 callflowResource "status" cfParams
      (by decide)⟩

/-- Claim C2: for every resource descriptor whose URL template has at least
two path parameters, the generated list method's parameter list is exactly
the template's parameters except the last, in template order; the generated
detail, update and delete methods take those same parameters followed by
the last (object) parameter; and update and create additionally take a
trailing data parameter. -/
theorem generated_method_parameter_lists (name path : String)
    (pl : Option String) (evs : List ViewDesc) (ms ex : List String)
    (r : RestResource) (hlen : 2 ≤ (findParams path).length)
    (hr : mkRestResource name path pl evs ms ex = .ok r) :
    listFuncArgs r = (findParams path).dropLast ∧
    getObjectFuncArgs r = findParams path ∧
    deleteFuncArgs r = findParams path ∧
    updateFuncArgs r = findParams path ++ ["data"] ∧
    createFuncArgs r = (findParams path).dropLast ++ ["data"] := by
  unfold mkRestResource at hr
  cases hfp : findParams path with
  | nil => rw [hfp] at hlen; exact absurd hlen (by decide)
  | cons p ps =>
      rw [hfp] at hlen hr
      have hlt : 1 < (p :: ps).length := hlen
      injection hr with hrec
      subst hrec
      simp only [listFuncArgs, getObjectFuncArgs, deleteFuncArgs,
        updateFuncArgs, createFuncArgs, funcParamList, if_pos hlt]
      refine ⟨by simp, ?_, ?_, ?_, by simp⟩ <;>
        simp [List.dropLast_append_getLast (List.cons_ne_nil p ps)]

/-- Witness for C2 at the callflow resource, whose template has two path
parameters. -/
theorem generated_method_parameter_lists_witness :
    listFuncArgs callflowResource =
      (findParams
        "/accounts/{account_id}/callflows/{callflow_id}").dropLast ∧
    getObjectFuncArgs callflowResource =
      findParams "/accounts/{account_id}/callflows/{callflow_id}" ∧
    deleteFuncArgs callflowResource =
      findParams "/accounts/{account_id}/callflows/{callflow_id}" ∧
    updateFuncArgs callflowResource =
      findParams "/accounts/{account_id}/callflows/{callflow_id}" ++
        ["data"] ∧
    createFuncArgs callflowResource =
      (findParams
        "/accounts/{account_id}/callflows/{callflow_id}").dropLast ++
        ["data"] :=
  generated_method_parameter_lists "callflow"
    "/accounts/{account_id}/callflows/{callflow_id}" none [] METHOD_TYPES
    [] callflowResource (by decide) (by decide)

/-- Shifting lemma: `rfind` on a concatenation gives a hit in the right part shifts by the left
part's length (the last occurrence in the whole list is the last in the
right part, whenever the right part has one). -/
theorem rfindBrace_append (l₁ l₂ : List Char) (i : Nat)
    (h : rfindBrace l₂ = some i) :
    rfindBrace (l₁ ++ l₂) = some (l₁.length + i) := by
  induction l₁ with
  | nil => simpa using h
  | cons c l ih =>
      show rfindBrace (c :: (l ++ l₂)) = _
      rw [rfindBrace, ih]
      simp [Nat.add_assoc, Nat.add_comm 1 i]

/-- Absence lemma: `rfind` finds nothing in a list without a `{`. -/
theorem rfindBrace_of_not_mem (l : List Char) (h : '{' ∉ l) :
    rfindBrace l = none := by
  induction l with
  | nil => rfl
  | cons c rest ih =>
      rw [List.mem_cons, not_or] at h
      rw [rfindBrace, ih h.2, if_neg (fun hc => h.1 hc.symm)]

/-- On a template of the shape `p ++ "/{obj}"` whose object-parameter name
contains no `{`, stripping from the last `{` minus one character yields
exactly `p`. -/
theorem getResourcePath_concat (p obj : String)
    (hobj : '{' ∉ obj.toList) :
    getResourcePath (p ++ "/\x7b" ++ obj ++ "\x7d") = p := by
  have hdata : (p ++ "/\x7b" ++ obj ++ "\x7d").toList =
      p.toList ++ ('/' :: '{' :: (obj.toList ++ ['}'])) := by
    show (p ++ "/\x7b" ++ obj ++ "\x7d").data =
      p.data ++ ('/' :: '{' :: (obj.data ++ ['}']))
    simp [String.data_append]
  have hnone : rfindBrace (obj.toList ++ ['}']) = none := by
    refine rfindBrace_of_not_mem _ ?_
    rw [List.mem_append, not_or]
    exact ⟨hobj, by decide⟩
  have htail : rfindBrace ('/' :: '{' :: (obj.toList ++ ['}'])) = some 1 := by
    rw [rfindBrace, rfindBrace, hnone]
    rfl
  have hfind : rfindBrace ((p ++ "/\x7b" ++ obj ++ "\x7d").toList) =
      some (p.toList.length + 1) := by
    rw [hdata]
    exact rfindBrace_append _ _ _ htail
  have hidx : ((p.toList.length + 1 : Nat) : Int) - 1 =
      (p.toList.length : Int) := by push_cast; ring
  have hslice : pySlice ((p ++ "/\x7b" ++ obj ++ "\x7d").toList)
      (p.toList.length : Int) = p.toList := by
    rw [pySlice, if_pos (Int.ofNat_nonneg _), hdata]
    simp [List.take_left p.toList ('/' :: '{' :: (obj.toList ++ ['}']))]
  unfold getResourcePath
  rw [hfind]
  show String.mk (pySlice ((p ++ "/\x7b" ++ obj ++ "\x7d").toList)
      (((p.toList.length + 1 : Nat) : Int) - 1)) = p
  rw [hidx, hslice]
  rfl

/-- Claim C7: for a resource descriptor whose URL template ends in a
trailing object-parameter segment, the base path is the template with that
segment stripped, and the built requests are: create at the substituted
base path with PUT; update at the object URL (base path, `/`, object id)
with POST; delete at the object URL with DELETE. -/
theorem resource_path_and_crud_requests (name p obj path : String)
    (pl : Option String) (evs : List ViewDesc) (ms ex : List String)
    (r : RestResource) (params : String → String)
    (hpath : path = p ++ "/\x7b" ++ obj ++ "\x7d")
    (hobj : '{' ∉ obj.toList)
    (hr : mkRestResource name path pl evs ms ex = .ok r) :
    r.path = p ∧
    getCreateObjectRequest r params =
      { path := formatString p params, method := "put" } ∧
    getUpdateObjectRequest r params =
      { path := formatString p params ++ "/" ++ params r.objectArg,
        method := "post" } ∧
    getDeleteObjectRequest r params =
      { path := formatString p params ++ "/" ++ params r.objectArg,
        method := "delete" } := by
  have hbase : getResourcePath path = p := by
    rw [hpath]; exact getResourcePath_concat p obj hobj
  unfold mkRestResource at hr
  cases hfp : findParams path with
  | nil => rw [hfp] at hr; cases hr
  | cons q qs =>
      rw [hfp] at hr
      injection hr with hrec
      subst hrec
      refine ⟨hbase, ?_, ?_, ?_⟩ <;>
        simp [getCreateObjectRequest, getUpdateObjectRequest,
          getDeleteObjectRequest, getFullUrl, hbase]

/-- Witness for C7 at the callflow resource and a concrete parameter
assignment. -/
theorem resource_path_and_crud_requests_witness :
    callflowResource.path = "/accounts/{account_id}/callflows" ∧
    getCreateObjectRequest callflowResource cfParams =
      { path := formatString "/accounts/{account_id}/callflows" cfParams,
        method := "put" } ∧
    getUpdateObjectRequest callflowResource cfParams =
      { path := formatString "/accounts/{account_id}/callflows" cfParams ++
          "/" ++ cfParams callflowResource.objectArg,
        method := "post" } ∧
    getDeleteObjectRequest callflowResource cfParams =
      { path := formatString "/accounts/{account_id}/callflows" cfParams ++
          "/" ++ cfParams callflowResource.objectArg,
        method := "delete" } :=
  resource_path_and_crud_requests "callflow"
    "/accounts/{account_id}/callflows" "callflow_id"
    "/accounts/{account_id}/callflows/{callflow_id}" none [] METHOD_TYPES
    [] callflowResource cfParams (by decide) (by decide) (by decide)

end Kazoo
